import Mathlib

/-!
# Verification of the ICT Face Kit loader pipeline

A shallow embedding of `loadICTFaceModel` from
`src/operators/face_model_loader.py`, together with proofs of the
behavioural claims made by the specification.

The Python function interacts with three external effects, which the
embedding abstracts as oracles, exactly along the seams the function
itself uses:

* the filesystem (`os.path.isdir`, `os.path.exists`, and the parsed
  content of the JSON config file) becomes the structure `FS`;
* the host import service (`import_obj` followed by the inspection of
  `bpy.context.selected_objects`) becomes the structure `ImportService`,
  giving for each import call site one of three observable outcomes:
  the call succeeded and left a selected object (`ok`), the call
  returned but no object was selected (`noObject`), or the call raised
  an exception (`exc`);
* the unbounded `itertools.count()` loop is run on explicit fuel, with
  `none` denoting fuel exhaustion (divergence of the Python loop).

Each raise site of the Python function gets its own constructor of
`LoadError`, recording the Python exception class and, where the
message embeds one, the offending path.
-/

/-- Outcome of one call to the host import service, as observed by the
Python code: `ok` means `import_obj` returned and
`bpy.context.selected_objects` was non-empty; `noObject` means it
returned but the selection was empty; `exc` means the call raised. -/
inductive ImportOutcome
  | ok
  | noObject
  | exc
deriving DecidableEq, Repr

/-- The parsed JSON config dict (`vertex_indices.json`).
`hasOtherKeys` records whether the dict has keys besides
`expressions`; together with `expressions` it determines Python dict
truthiness and the subscript behaviour of `config["expressions"]`. -/
structure Config where
  hasOtherKeys : Bool
  expressions : Option (List String)
deriving DecidableEq, Repr

/-- Python truthiness of the parsed dict: a dict is falsy exactly when
it is empty, i.e. has no keys at all. -/
def Config.isFalsy (c : Config) : Bool :=
  !c.hasOtherKeys && c.expressions.isNone

/-- Result of `json.load` on the config file: either a
`json.JSONDecodeError` or a parsed dict. -/
inductive ConfigRead
  | invalidJson
  | valid (config : Config)
deriving DecidableEq, Repr

/-- The filesystem as observed by `loadICTFaceModel`:
`os.path.isdir`, `os.path.exists`, and the content read from the
config file inside the directory. -/
structure FS where
  isDir : String → Bool
  pathExists : String → Bool
  configContent : ConfigRead

/-- The host import service, one oracle per call site of `import_obj`:
the single base-mesh import, the import attempted for the i-th entry
of the manifest `expressions` list, and the import attempted for
identity index i. -/
structure ImportService where
  baseOutcome : ImportOutcome
  exprOutcome : Nat → ImportOutcome
  identOutcome : Nat → ImportOutcome

/-- `os.path.join(dir, name)` for the POSIX-style paths the loader
builds. -/
def pathJoin (dir name : String) : String := dir ++ "/" ++ name

/-- Python `"{:03d}".format n`: decimal digits of `n`, left-padded
with zeros to a minimum width of 3. -/
def pad3 (n : Nat) : String :=
  if n < 10 then "00" ++ toString n
  else if n < 100 then "0" ++ toString n
  else toString n

/-- The fixed names used by `loadICTFaceModel`. -/
def face_model_name : String := "ICTFaceModel"

/-- Fixed filename of the required base mesh. -/
def generic_neutral_filename : String := "generic_neutral_mesh.obj"

/-- Python `identity_morph_target_name.format(identity_num)`, i.e.
`"identity{:03d}"` applied to the index. -/
def identity_morph_target_name (identity_num : Nat) : String :=
  "identity" ++ pad3 identity_num

/-- Fixed filename of the required JSON config. -/
def config_filename : String := "vertex_indices.json"

/-- One constructor per raise site of `loadICTFaceModel`, with the
Python exception class in the comment. -/
inductive LoadError
  | invalidDirectoryPath (path : String)
  | neutralMeshNotFound (path : String)
  | configFileNotFound (path : String)
  | invalidJsonInConfig (path : String)
  | emptyConfigurationFile
  | errorImportingNeutralMesh
  | keyErrorExpressions
  | noValidMorphTargets
deriving DecidableEq, Repr

/-- The expression-import loop of `loadICTFaceModel`, collecting
`expression_names` in order. For each manifest entry: if the file
`name + ".obj"` is absent, `continue`; if the import raises,
`continue`; if the selection is empty after import, `continue`;
otherwise rename the object and append the name. `i` is the position
of the entry in the manifest list, used to index the import oracle.
The Python loop appends to an accumulator; building the list by
consing along the recursion produces the same list in the same
order. -/
def expressionLoopAux (fs : FS) (svc : ImportService) (folderpath : String) :
    List String → Nat → List String
  | [], _ => []
  | expression_name :: rest, i =>
    let filepath := pathJoin folderpath (expression_name ++ ".obj")
    if fs.pathExists filepath = false then
      expressionLoopAux fs svc folderpath rest (i + 1)
    else
      match svc.exprOutcome i with
      | .exc => expressionLoopAux fs svc folderpath rest (i + 1)
      | .noObject => expressionLoopAux fs svc folderpath rest (i + 1)
      | .ok => expression_name :: expressionLoopAux fs svc folderpath rest (i + 1)

/-- The identity-import loop of `loadICTFaceModel`, collecting
`identity_names`. For index `identity_num` = 0, 1, 2, …: if the file
`identity{:03d}.obj` is absent, `break`; if the import raises,
`break`; if the selection is empty after import, `continue` to the
next index; otherwise append the name and go on. The Python loop is
unbounded (`itertools.count()`), so the embedding runs on fuel and
returns `none` when the fuel runs out before the loop ends. -/
def identityLoopAux (fs : FS) (svc : ImportService) (folderpath : String) :
    Nat → Nat → Option (List String)
  | 0, _ => none
  | fuel + 1, identity_num =>
    let identity_name := identity_morph_target_name identity_num
    let filepath := pathJoin folderpath (identity_name ++ ".obj")
    if fs.pathExists filepath = false then
      some []
    else
      match svc.identOutcome identity_num with
      | .exc => some []
      | .noObject => identityLoopAux fs svc folderpath fuel (identity_num + 1)
      | .ok =>
        (identityLoopAux fs svc folderpath fuel (identity_num + 1)).map
          (fun rest => identity_name :: rest)

/-- The observable final state of a successful run: the name assigned
to the base object (`face_model_neutral_object.name = face_model_name`)
and the two collected name lists. The Python locals
`expression_models` / `identity_models` are appended in lockstep with
`expression_names` / `identity_names`, so their lengths coincide with
the lengths of the name lists kept here. -/
structure LoadState where
  baseObjectName : String
  expression_names : List String
  identity_names : List String
deriving DecidableEq, Repr

/-- Shallow embedding of `loadICTFaceModel(folderpath)`. Mirrors the
Python control flow statement by statement: directory check
(`ValueError`), existence checks for the neutral mesh and the config
file (`FileNotFoundError`), `json.load` (`ValueError` on decode error,
`ValueError` on a falsy dict), base import (`ImportError` when the
call raises or leaves nothing selected), `config["expressions"]`
(an uncaught `KeyError` when the key is absent), the two import
loops, the final non-empty check (`ValueError`), and the assembly
calls (`join_shapes`, `delete`), which return nothing the function
observes. `none` means the identity loop ran out of fuel. -/
def loadICTFaceModelState (fs : FS) (svc : ImportService) (folderpath : String)
    (fuel : Nat) : Option (Except LoadError LoadState) :=
  if fs.isDir folderpath = false then
    some (.error (.invalidDirectoryPath folderpath))
  else
    let generic_neutral_filepath := pathJoin folderpath generic_neutral_filename
    let config_filepath := pathJoin folderpath config_filename
    if fs.pathExists generic_neutral_filepath = false then
      some (.error (.neutralMeshNotFound generic_neutral_filepath))
    else if fs.pathExists config_filepath = false then
      some (.error (.configFileNotFound config_filepath))
    else
      match fs.configContent with
      | .invalidJson => some (.error (.invalidJsonInConfig config_filepath))
      | .valid config =>
        if config.isFalsy then
          some (.error .emptyConfigurationFile)
        else
          match svc.baseOutcome with
          | .exc => some (.error .errorImportingNeutralMesh)
          | .noObject => some (.error .errorImportingNeutralMesh)
          | .ok =>
            match config.expressions with
            | none => some (.error .keyErrorExpressions)
            | some exprList =>
              let expression_names := expressionLoopAux fs svc folderpath exprList 0
              match identityLoopAux fs svc folderpath fuel 0 with
              | none => none
              | some identity_names =>
                if expression_names.isEmpty && identity_names.isEmpty then
                  some (.error .noValidMorphTargets)
                else
                  some (.ok ⟨face_model_name, expression_names, identity_names⟩)

/-- The value `loadICTFaceModel` actually returns:
`(len(expression_models), len(identity_models))`. -/
def loadICTFaceModel (fs : FS) (svc : ImportService) (folderpath : String)
    (fuel : Nat) : Option (Except LoadError (Nat × Nat)) :=
  (loadICTFaceModelState fs svc folderpath fuel).map
    (Except.map fun st => (st.expression_names.length, st.identity_names.length))

/-- The abstract error taxonomy of the specification (section 7). -/
inductive SpecErrorKind
  | NotFoundError
  | ConfigError
  | ImportError
  | NoMorphTargetsError
  | UncategorizedError
deriving DecidableEq, Repr

/-- Classification of the raise sites of the code into the abstract taxonomy
of error kinds of the specification, following its descriptions:
`NotFoundError` for a missing directory or required file,
`ConfigError` for an unreadable or empty manifest, `ImportError` for a
failed base import, `NoMorphTargetsError` for zero usable variants.
The uncaught `KeyError` from `config["expressions"]` has no
counterpart in the taxonomy of the spec. -/
def specErrorKind : LoadError → SpecErrorKind
  | .invalidDirectoryPath _ => .NotFoundError
  | .neutralMeshNotFound _ => .NotFoundError
  | .configFileNotFound _ => .NotFoundError
  | .invalidJsonInConfig _ => .ConfigError
  | .emptyConfigurationFile => .ConfigError
  | .errorImportingNeutralMesh => .ImportError
  | .keyErrorExpressions => .UncategorizedError
  | .noValidMorphTargets => .NoMorphTargetsError

/-- Whether an import outcome is a success. -/
def ImportOutcome.isOk : ImportOutcome → Bool
  | .ok => true
  | .noObject => false
  | .exc => false

/-- Spec-side description of the collected expressions (section 8):
the manifest entries whose `.obj` file exists and whose import
succeeds, in manifest order. Stated with explicit positions so that a
manifest may declare the same name twice. -/
def specCollectedExpressions (fs : FS) (svc : ImportService) (folderpath : String)
    (names : List String) : List String :=
  ((names.enumFrom 0).filter fun p =>
      fs.pathExists (pathJoin folderpath (p.2 ++ ".obj")) &&
        (svc.exprOutcome p.1).isOk).map Prod.snd

/-! ## Concrete environments used by the witnesses -/

/-- A manifest declaring two expressions. -/
def cfgA : Config := ⟨false, some ["smile", "frown"]⟩

/-- Directory `d` with the two required files, `smile.obj` (but not
`frown.obj`), and identity meshes at indices 0, 1 and 3 but not 2. -/
def fsA : FS :=
  { isDir := fun p => p == "d"
    pathExists := fun p =>
      p == "d/generic_neutral_mesh.obj" || p == "d/vertex_indices.json" ||
      p == "d/smile.obj" || p == "d/identity000.obj" ||
      p == "d/identity001.obj" || p == "d/identity003.obj"
    configContent := .valid cfgA }

/-- An import service for which every call succeeds. -/
def svcAllOk : ImportService :=
  { baseOutcome := .ok, exprOutcome := fun _ => .ok, identOutcome := fun _ => .ok }

/-- An import service whose base import raises. -/
def svcBaseExc : ImportService :=
  { baseOutcome := .exc, exprOutcome := fun _ => .ok, identOutcome := fun _ => .ok }

/-- An import service for which the import of manifest entry 1 raises
and every other call succeeds. -/
def svcExprOneExc : ImportService :=
  { baseOutcome := .ok
    exprOutcome := fun i => if i = 1 then .exc else .ok
    identOutcome := fun _ => .ok }

/-- An import service for which the import of identity index 1 raises
and every other call succeeds. -/
def svcIdentOneExc : ImportService :=
  { baseOutcome := .ok
    exprOutcome := fun _ => .ok
    identOutcome := fun i => if i = 1 then .exc else .ok }

/-- Directory `d` with the two required files, expression meshes
`a.obj`, `b.obj`, `c.obj`, and identity meshes at indices 0, 1 and 2.
Its manifest declares the three expressions. -/
def fsB : FS :=
  { isDir := fun p => p == "d"
    pathExists := fun p =>
      p == "d/generic_neutral_mesh.obj" || p == "d/vertex_indices.json" ||
      p == "d/a.obj" || p == "d/b.obj" || p == "d/c.obj" ||
      p == "d/identity000.obj" || p == "d/identity001.obj" ||
      p == "d/identity002.obj"
    configContent := .valid ⟨false, some ["a", "b", "c"]⟩ }

/-- A filesystem with no directory at all. -/
def fsNoDir : FS :=
  { isDir := fun _ => false, pathExists := fun _ => false
    configContent := .invalidJson }

/-- Directory `d` exists but contains no files. -/
def fsNoNeutral : FS :=
  { isDir := fun p => p == "d", pathExists := fun _ => false
    configContent := .invalidJson }

/-- Directory `d` contains the neutral mesh but no config file. -/
def fsNoConfig : FS :=
  { isDir := fun p => p == "d"
    pathExists := fun p => p == "d/generic_neutral_mesh.obj"
    configContent := .invalidJson }

/-- Directory `d` contains both required files but the config is not
valid JSON. -/
def fsBadJson : FS :=
  { isDir := fun p => p == "d"
    pathExists := fun p =>
      p == "d/generic_neutral_mesh.obj" || p == "d/vertex_indices.json"
    configContent := .invalidJson }

/-- Directory `d` contains both required files and the config parses
to the empty dict. -/
def fsEmptyCfg : FS :=
  { isDir := fun p => p == "d"
    pathExists := fun p =>
      p == "d/generic_neutral_mesh.obj" || p == "d/vertex_indices.json"
    configContent := .valid ⟨false, none⟩ }

/-- Directory `d` contains both required files and `identity000.obj`;
the config parses to a non-empty dict that lacks the `expressions`
key. -/
def fsNoKey : FS :=
  { isDir := fun p => p == "d"
    pathExists := fun p =>
      p == "d/generic_neutral_mesh.obj" || p == "d/vertex_indices.json" ||
      p == "d/identity000.obj"
    configContent := .valid ⟨true, none⟩ }

/-- Directory `d` contains both required files and a manifest naming
`smile`, but neither `smile.obj` nor any identity mesh. -/
def fsNoTargets : FS :=
  { isDir := fun p => p == "d"
    pathExists := fun p =>
      p == "d/generic_neutral_mesh.obj" || p == "d/vertex_indices.json"
    configContent := .valid ⟨false, some ["smile"]⟩ }

/-! ## Helper lemmas about the two loops -/

/-- The expression loop computes exactly the spec-side filter: the
entries whose file exists and whose import succeeds, in order. -/
theorem expressionLoopAux_eq_filter (fs : FS) (svc : ImportService) (d : String) :
    ∀ (names : List String) (i : Nat),
      expressionLoopAux fs svc d names i =
        ((names.enumFrom i).filter fun p =>
            fs.pathExists (pathJoin d (p.2 ++ ".obj")) &&
              (svc.exprOutcome p.1).isOk).map Prod.snd := by
  intro names
  induction names with
  | nil => intro i; rfl
  | cons a l ih =>
    intro i
    rw [expressionLoopAux]
    cases h : fs.pathExists (pathJoin d (a ++ ".obj")) with
    | false => simp [List.enumFrom_cons, h, ih]
    | true =>
      cases ho : svc.exprOutcome i <;>
        simp [List.enumFrom_cons, h, ho, ih, ImportOutcome.isOk]

/-- Mapping the second projection over an enumeration recovers the
original list. -/
theorem enumFrom_snd :
    ∀ (l : List String) (i : Nat), (l.enumFrom i).map Prod.snd = l := by
  intro l
  induction l with
  | nil => intro i; rfl
  | cons a t ih => intro i; simp [List.enumFrom_cons, ih]

/-- The collected expressions form a subsequence of the manifest list. -/
theorem expressionLoopAux_sublist (fs : FS) (svc : ImportService) (d : String)
    (names : List String) (i : Nat) :
    (expressionLoopAux fs svc d names i).Sublist names := by
  rw [expressionLoopAux_eq_filter]
  have h := (List.filter_sublist (l := names.enumFrom i)
    (p := fun p => fs.pathExists (pathJoin d (p.2 ++ ".obj")) &&
      (svc.exprOutcome p.1).isOk)).map Prod.snd
  rwa [enumFrom_snd] at h

/-- When every file exists and every import from position `i` on
succeeds, the loop collects the whole list. -/
theorem expressionLoopAux_all_ok (fs : FS) (svc : ImportService) (d : String) :
    ∀ (names : List String) (i : Nat),
      (∀ n ∈ names, fs.pathExists (pathJoin d (n ++ ".obj")) = true) →
      (∀ k, i ≤ k → svc.exprOutcome k = .ok) →
      expressionLoopAux fs svc d names i = names := by
  intro names
  induction names with
  | nil => intro i _ _; rfl
  | cons a l ih =>
    intro i hex hok
    rw [expressionLoopAux]
    have ha : fs.pathExists (pathJoin d (a ++ ".obj")) = true :=
      hex a (List.mem_cons_self a l)
    rw [ha]
    simp only [Bool.true_eq_false, if_false]
    rw [hok i (Nat.le_refl i)]
    rw [ih (i + 1) (fun n hn => hex n (List.mem_cons_of_mem a hn))
      (fun k hk => hok k (Nat.le_of_succ_le hk))]

/-- The loop processes an initial segment whose files exist and whose mesh
loads succeed by collecting it wholesale and continuing behind it. -/
theorem expressionLoopAux_append (fs : FS) (svc : ImportService) (d : String) :
    ∀ (l₁ l₂ : List String) (i : Nat),
      (∀ n ∈ l₁, fs.pathExists (pathJoin d (n ++ ".obj")) = true) →
      (∀ k, i ≤ k → k < i + l₁.length → svc.exprOutcome k = .ok) →
      expressionLoopAux fs svc d (l₁ ++ l₂) i =
        l₁ ++ expressionLoopAux fs svc d l₂ (i + l₁.length) := by
  intro l₁
  induction l₁ with
  | nil => intro l₂ i _ _; simp
  | cons a l ih =>
    intro l₂ i hex hok
    have ha : fs.pathExists (pathJoin d (a ++ ".obj")) = true :=
      hex a (List.mem_cons_self a l)
    have hoka : svc.exprOutcome i = .ok :=
      hok i (Nat.le_refl i) (by simp only [List.length_cons]; omega)
    have hrec := ih l₂ (i + 1) (fun n hn => hex n (List.mem_cons_of_mem a hn))
      (fun k hk1 hk2 => hok k (Nat.le_of_succ_le hk1)
        (by simp only [List.length_cons]; omega))
    have hlen : i + 1 + l.length = i + (l.length + 1) := by omega
    rw [List.cons_append, expressionLoopAux]
    rw [ha]
    simp only [Bool.true_eq_false, if_false]
    rw [hoka]
    simp only [hrec, hlen, List.length_cons, List.cons_append]

/-- Core behaviour of the identity loop: starting at index `i`, if the
files for the next `d` indices exist and import successfully and the
file for index `i + d` is absent, the loop stops there and collects
exactly the names of indices `i, …, i + d - 1`. Nothing is assumed
about any index past `i + d`: the loop never looks at them. -/
theorem identityLoopAux_run (fs : FS) (svc : ImportService) (dir : String) :
    ∀ (d i fuel : Nat), d + 1 ≤ fuel →
      (∀ m, m < d →
        fs.pathExists (pathJoin dir (identity_morph_target_name (i + m) ++ ".obj")) = true) →
      (∀ m, m < d → svc.identOutcome (i + m) = .ok) →
      fs.pathExists (pathJoin dir (identity_morph_target_name (i + d) ++ ".obj")) = false →
      identityLoopAux fs svc dir fuel i =
        some ((List.range' i d).map identity_morph_target_name) := by
  intro d
  induction d with
  | zero =>
    intro i fuel hfuel _ _ hmiss
    match fuel, hfuel with
    | fuel + 1, _ =>
      rw [identityLoopAux]
      rw [show i + 0 = i from rfl] at hmiss
      rw [hmiss]
      rfl
  | succ d ih =>
    intro i fuel hfuel hex hok hmiss
    match fuel, hfuel with
    | fuel + 1, hfuel =>
      have ha : fs.pathExists (pathJoin dir (identity_morph_target_name i ++ ".obj")) = true := by
        have := hex 0 (Nat.succ_pos d)
        rwa [Nat.add_zero] at this
      have hoka : svc.identOutcome i = .ok := by
        have := hok 0 (Nat.succ_pos d)
        rwa [Nat.add_zero] at this
      have hrec := ih (i + 1) fuel (Nat.le_of_succ_le_succ hfuel)
        (fun m hm => by
          have := hex (m + 1) (Nat.succ_lt_succ hm)
          rwa [show i + (m + 1) = i + 1 + m from by omega] at this)
        (fun m hm => by
          have := hok (m + 1) (Nat.succ_lt_succ hm)
          rwa [show i + (m + 1) = i + 1 + m from by omega] at this)
        (by rwa [show i + 1 + d = i + (d + 1) from by omega])
      rw [identityLoopAux]
      rw [ha]
      simp only [Bool.true_eq_false, if_false]
      rw [hoka]
      rw [hrec]
      rfl

/-- Break behaviour of the identity loop: if the files for indices
`i, …, i + d` all exist, the imports at `i, …, i + d - 1` succeed and
the import at `i + d` raises, the loop terminates at `i + d` having
collected only the names of `i, …, i + d - 1`, regardless of what any
later index holds. -/
theorem identityLoopAux_break (fs : FS) (svc : ImportService) (dir : String) :
    ∀ (d i fuel : Nat), d + 1 ≤ fuel →
      (∀ m, m ≤ d →
        fs.pathExists (pathJoin dir (identity_morph_target_name (i + m) ++ ".obj")) = true) →
      (∀ m, m < d → svc.identOutcome (i + m) = .ok) →
      svc.identOutcome (i + d) = .exc →
      identityLoopAux fs svc dir fuel i =
        some ((List.range' i d).map identity_morph_target_name) := by
  intro d
  induction d with
  | zero =>
    intro i fuel hfuel hex _ hexc
    match fuel, hfuel with
    | fuel + 1, _ =>
      have ha : fs.pathExists (pathJoin dir (identity_morph_target_name i ++ ".obj")) = true := by
        have := hex 0 (Nat.le_refl 0)
        rwa [Nat.add_zero] at this
      rw [Nat.add_zero] at hexc
      rw [identityLoopAux]
      rw [ha]
      simp only [Bool.true_eq_false, if_false]
      rw [hexc]
      rfl
  | succ d ih =>
    intro i fuel hfuel hex hok hexc
    match fuel, hfuel with
    | fuel + 1, hfuel =>
      have ha : fs.pathExists (pathJoin dir (identity_morph_target_name i ++ ".obj")) = true := by
        have := hex 0 (Nat.zero_le _)
        rwa [Nat.add_zero] at this
      have hoka : svc.identOutcome i = .ok := by
        have := hok 0 (Nat.succ_pos d)
        rwa [Nat.add_zero] at this
      have hrec := ih (i + 1) fuel (Nat.le_of_succ_le_succ hfuel)
        (fun m hm => by
          have := hex (m + 1) (Nat.succ_le_succ hm)
          rwa [show i + (m + 1) = i + 1 + m from by omega] at this)
        (fun m hm => by
          have := hok (m + 1) (Nat.succ_lt_succ hm)
          rwa [show i + (m + 1) = i + 1 + m from by omega] at this)
        (by rwa [show i + 1 + d = i + (d + 1) from by omega])
      rw [identityLoopAux]
      rw [ha]
      simp only [Bool.true_eq_false, if_false]
      rw [hoka]
      rw [hrec]
      rfl

/-- Termination of the identity loop: as soon as the file of some index is
absent, enough fuel makes the loop return a result. -/
theorem identityLoopAux_total (fs : FS) (svc : ImportService) (dir : String) :
    ∀ (d i fuel : Nat), d + 1 ≤ fuel →
      fs.pathExists (pathJoin dir (identity_morph_target_name (i + d) ++ ".obj")) = false →
      identityLoopAux fs svc dir fuel i ≠ none := by
  intro d
  induction d with
  | zero =>
    intro i fuel hfuel hmiss
    match fuel, hfuel with
    | fuel + 1, _ =>
      rw [Nat.add_zero] at hmiss
      rw [identityLoopAux, hmiss]
      simp
  | succ d ih =>
    intro i fuel hfuel hmiss
    match fuel, hfuel with
    | fuel + 1, hfuel =>
      rw [identityLoopAux]
      cases ha : fs.pathExists (pathJoin dir (identity_morph_target_name i ++ ".obj")) with
      | false => simp
      | true =>
        simp only [Bool.true_eq_false, if_false]
        have hrec := ih (i + 1) fuel (Nat.le_of_succ_le_succ hfuel)
          (by rwa [show i + 1 + d = i + (d + 1) from by omega])
        cases ho : svc.identOutcome i with
        | ok => simpa using hrec
        | noObject => simpa using hrec
        | exc => simp

/-! ## Helper lemmas about the whole pipeline -/

/-- When all precondition checks pass, the manifest parses to a
non-empty dict carrying an `expressions` list, and the base import
succeeds, the pipeline reduces to the two loops followed by the
non-empty check. -/
theorem loadICTFaceModelState_run (fs : FS) (svc : ImportService)
    (folderpath : String) (fuel : Nat) (cfg : Config) (names : List String)
    (hdir : fs.isDir folderpath = true)
    (hn : fs.pathExists (pathJoin folderpath generic_neutral_filename) = true)
    (hc : fs.pathExists (pathJoin folderpath config_filename) = true)
    (hcfg : fs.configContent = .valid cfg)
    (hfal : cfg.isFalsy = false)
    (hb : svc.baseOutcome = .ok)
    (he : cfg.expressions = some names) :
    loadICTFaceModelState fs svc folderpath fuel =
      match identityLoopAux fs svc folderpath fuel 0 with
      | none => none
      | some ids =>
        if (expressionLoopAux fs svc folderpath names 0).isEmpty && ids.isEmpty then
          some (.error .noValidMorphTargets)
        else
          some (.ok ⟨face_model_name, expressionLoopAux fs svc folderpath names 0, ids⟩) := by
  simp only [loadICTFaceModelState, hdir, hn, hc, hcfg, hfal, hb, he,
    Bool.true_eq_false, Bool.false_eq_true, if_false]

/-- Inversion of a successful run: the base object carries the fixed
name, the identity names are what the identity loop collected, and
the expression names are what the expression loop collected over the
manifest list. -/
theorem loadICTFaceModelState_ok_inv (fs : FS) (svc : ImportService)
    (folderpath : String) (fuel : Nat) (st : LoadState)
    (h : loadICTFaceModelState fs svc folderpath fuel = some (.ok st)) :
    st.baseObjectName = face_model_name ∧
    identityLoopAux fs svc folderpath fuel 0 = some st.identity_names ∧
    ∃ cfg names, fs.configContent = .valid cfg ∧ cfg.expressions = some names ∧
      st.expression_names = expressionLoopAux fs svc folderpath names 0 := by
  rw [loadICTFaceModelState] at h
  cases hdir : fs.isDir folderpath with
  | false => rw [hdir] at h; simp at h
  | true =>
  rw [hdir] at h
  simp only [Bool.true_eq_false, if_false] at h
  cases hn : fs.pathExists (pathJoin folderpath generic_neutral_filename) with
  | false => rw [hn] at h; simp at h
  | true =>
  rw [hn] at h
  simp only [Bool.true_eq_false, if_false] at h
  cases hc : fs.pathExists (pathJoin folderpath config_filename) with
  | false => rw [hc] at h; simp at h
  | true =>
  rw [hc] at h
  simp only [Bool.true_eq_false, if_false] at h
  cases hcfg : fs.configContent with
  | invalidJson => rw [hcfg] at h; simp at h
  | valid cfg =>
  rw [hcfg] at h
  simp only at h
  cases hfal : cfg.isFalsy with
  | true => rw [hfal] at h; simp at h
  | false =>
  rw [hfal] at h
  simp only [Bool.false_eq_true, if_false] at h
  cases hb : svc.baseOutcome with
  | exc => rw [hb] at h; simp at h
  | noObject => rw [hb] at h; simp at h
  | ok =>
  rw [hb] at h
  simp only at h
  cases he : cfg.expressions with
  | none => rw [he] at h; simp at h
  | some names =>
  rw [he] at h
  simp only at h
  cases hid : identityLoopAux fs svc folderpath fuel 0 with
  | none => rw [hid] at h; simp at h
  | some ids =>
  rw [hid] at h
  simp only at h
  cases hemp : (expressionLoopAux fs svc folderpath names 0).isEmpty && ids.isEmpty with
  | true => rw [hemp] at h; simp at h
  | false =>
  rw [hemp] at h
  simp only [Bool.false_eq_true, if_false, Option.some_inj] at h
  injection h with h3
  subst h3
  exact ⟨rfl, rfl, cfg, names, rfl, he, rfl⟩

/-- A run can only fail to produce a result (fuel exhaustion) through
the identity loop itself running out of fuel. -/
theorem loadICTFaceModelState_none_inv (fs : FS) (svc : ImportService)
    (folderpath : String) (fuel : Nat)
    (h : loadICTFaceModelState fs svc folderpath fuel = none) :
    identityLoopAux fs svc folderpath fuel 0 = none := by
  rw [loadICTFaceModelState] at h
  cases hdir : fs.isDir folderpath with
  | false => rw [hdir] at h; simp at h
  | true =>
  rw [hdir] at h
  simp only [Bool.true_eq_false, if_false] at h
  cases hn : fs.pathExists (pathJoin folderpath generic_neutral_filename) with
  | false => rw [hn] at h; simp at h
  | true =>
  rw [hn] at h
  simp only [Bool.true_eq_false, if_false] at h
  cases hc : fs.pathExists (pathJoin folderpath config_filename) with
  | false => rw [hc] at h; simp at h
  | true =>
  rw [hc] at h
  simp only [Bool.true_eq_false, if_false] at h
  cases hcfg : fs.configContent with
  | invalidJson => rw [hcfg] at h; simp at h
  | valid cfg =>
  rw [hcfg] at h
  simp only at h
  cases hfal : cfg.isFalsy with
  | true => rw [hfal] at h; simp at h
  | false =>
  rw [hfal] at h
  simp only [Bool.false_eq_true, if_false] at h
  cases hb : svc.baseOutcome with
  | exc => rw [hb] at h; simp at h
  | noObject => rw [hb] at h; simp at h
  | ok =>
  rw [hb] at h
  simp only at h
  cases he : cfg.expressions with
  | none => rw [he] at h; simp at h
  | some names =>
  rw [he] at h
  simp only at h
  cases hid : identityLoopAux fs svc folderpath fuel 0 with
  | none => rfl
  | some ids =>
  rw [hid] at h
  simp only at h
  cases hemp : (expressionLoopAux fs svc folderpath names 0).isEmpty && ids.isEmpty with
  | true => rw [hemp] at h; simp at h
  | false => rw [hemp] at h; simp at h

/-- A non-empty list is not `isEmpty`. -/
theorem isEmpty_false_of_ne_nil (l : List String) (h : l ≠ []) :
    l.isEmpty = false := by
  cases l with
  | nil => exact absurd rfl h
  | cons a t => rfl

/-! ## The claims -/

/-- Claim C4: for every input where the supplied path is not an
existing directory, or where the base mesh file or the config file is
absent from the directory, `loadICTFaceModel` fails — with the error
the taxonomy of the spec classifies as `NotFoundError`, whose message
carries the missing path — and does so before making any import call:
the conclusion holds for every import service and every fuel, so it
never consults an import outcome. -/
theorem claim_C4 (fs : FS) (folderpath : String) :
    (fs.isDir folderpath = false →
      ∀ (svc : ImportService) (fuel : Nat),
        loadICTFaceModel fs svc folderpath fuel =
          some (.error (.invalidDirectoryPath folderpath)) ∧
        specErrorKind (.invalidDirectoryPath folderpath) = .NotFoundError) ∧
    (fs.isDir folderpath = true →
      fs.pathExists (pathJoin folderpath generic_neutral_filename) = false →
      ∀ (svc : ImportService) (fuel : Nat),
        loadICTFaceModel fs svc folderpath fuel =
          some (.error (.neutralMeshNotFound
            (pathJoin folderpath generic_neutral_filename))) ∧
        specErrorKind (.neutralMeshNotFound
          (pathJoin folderpath generic_neutral_filename)) = .NotFoundError) ∧
    (fs.isDir folderpath = true →
      fs.pathExists (pathJoin folderpath generic_neutral_filename) = true →
      fs.pathExists (pathJoin folderpath config_filename) = false →
      ∀ (svc : ImportService) (fuel : Nat),
        loadICTFaceModel fs svc folderpath fuel =
          some (.error (.configFileNotFound (pathJoin folderpath config_filename))) ∧
        specErrorKind (.configFileNotFound (pathJoin folderpath config_filename)) =
          .NotFoundError) := by
  refine ⟨fun h svc fuel => ⟨?_, rfl⟩,
    fun h1 h2 svc fuel => ⟨?_, rfl⟩,
    fun h1 h2 h3 svc fuel => ⟨?_, rfl⟩⟩
  · simp [loadICTFaceModel, loadICTFaceModelState, Except.map, h]
  · simp [loadICTFaceModel, loadICTFaceModelState, Except.map, h1, h2]
  · simp [loadICTFaceModel, loadICTFaceModelState, Except.map, h1, h2, h3]

/-- Claim C4 witness: the three failure modes at concrete inputs. -/
theorem claim_C4_witness :
    (loadICTFaceModel fsNoDir svcAllOk "d" 1 =
        some (.error (.invalidDirectoryPath "d")) ∧
      specErrorKind (.invalidDirectoryPath "d") = .NotFoundError) ∧
    (loadICTFaceModel fsNoNeutral svcAllOk "d" 1 =
        some (.error (.neutralMeshNotFound (pathJoin "d" generic_neutral_filename))) ∧
      specErrorKind (.neutralMeshNotFound (pathJoin "d" generic_neutral_filename)) =
        .NotFoundError) ∧
    (loadICTFaceModel fsNoConfig svcAllOk "d" 1 =
        some (.error (.configFileNotFound (pathJoin "d" config_filename))) ∧
      specErrorKind (.configFileNotFound (pathJoin "d" config_filename)) =
        .NotFoundError) :=
  ⟨(claim_C4 fsNoDir "d").1 (by decide) svcAllOk 1,
   (claim_C4 fsNoNeutral "d").2.1 (by decide) (by decide) svcAllOk 1,
   (claim_C4 fsNoConfig "d").2.2 (by decide) (by decide) (by decide) svcAllOk 1⟩

/-- Claim C5: if the config file exists but parses to the empty JSON
object, or is not valid JSON, `loadICTFaceModel` fails with the error
the taxonomy of the spec classifies as `ConfigError`; the conclusion holds
for every import service and fuel, so no mesh import is attempted. -/
theorem claim_C5 (fs : FS) (folderpath : String)
    (hdir : fs.isDir folderpath = true)
    (hn : fs.pathExists (pathJoin folderpath generic_neutral_filename) = true)
    (hc : fs.pathExists (pathJoin folderpath config_filename) = true) :
    (fs.configContent = .invalidJson →
      ∀ (svc : ImportService) (fuel : Nat),
        loadICTFaceModel fs svc folderpath fuel =
          some (.error (.invalidJsonInConfig (pathJoin folderpath config_filename))) ∧
        specErrorKind (.invalidJsonInConfig (pathJoin folderpath config_filename)) =
          .ConfigError) ∧
    (∀ cfg, fs.configContent = .valid cfg → cfg.isFalsy = true →
      ∀ (svc : ImportService) (fuel : Nat),
        loadICTFaceModel fs svc folderpath fuel =
          some (.error .emptyConfigurationFile) ∧
        specErrorKind .emptyConfigurationFile = .ConfigError) := by
  refine ⟨fun hj svc fuel => ⟨?_, rfl⟩, fun cfg hv hf svc fuel => ⟨?_, rfl⟩⟩
  · simp [loadICTFaceModel, loadICTFaceModelState, Except.map, hdir, hn, hc, hj]
  · simp [loadICTFaceModel, loadICTFaceModelState, Except.map, hdir, hn, hc, hv, hf]

/-- Claim C5 witness: an invalid-JSON config and an empty-dict config
at concrete inputs. -/
theorem claim_C5_witness :
    (loadICTFaceModel fsBadJson svcAllOk "d" 1 =
        some (.error (.invalidJsonInConfig (pathJoin "d" config_filename))) ∧
      specErrorKind (.invalidJsonInConfig (pathJoin "d" config_filename)) =
        .ConfigError) ∧
    (loadICTFaceModel fsEmptyCfg svcAllOk "d" 1 =
        some (.error .emptyConfigurationFile) ∧
      specErrorKind .emptyConfigurationFile = .ConfigError) :=
  ⟨(claim_C5 fsBadJson "d" (by decide) (by decide) (by decide)).1 (by decide) svcAllOk 1,
   (claim_C5 fsEmptyCfg "d" (by decide) (by decide) (by decide)).2
     ⟨false, none⟩ (by decide) (by decide) svcAllOk 1⟩

/-- Claim C3: if all precondition checks pass, the base import
succeeds, and the two loops both collect nothing, `loadICTFaceModel`
fails with the error the taxonomy of the spec classifies as
`NoMorphTargetsError` rather than returning the counts `(0, 0)`. -/
theorem claim_C3 (fs : FS) (svc : ImportService) (folderpath : String)
    (fuel : Nat) (cfg : Config) (names : List String)
    (hdir : fs.isDir folderpath = true)
    (hn : fs.pathExists (pathJoin folderpath generic_neutral_filename) = true)
    (hc : fs.pathExists (pathJoin folderpath config_filename) = true)
    (hcfg : fs.configContent = .valid cfg)
    (hfal : cfg.isFalsy = false)
    (hb : svc.baseOutcome = .ok)
    (he : cfg.expressions = some names)
    (hexpr : expressionLoopAux fs svc folderpath names 0 = [])
    (hident : identityLoopAux fs svc folderpath fuel 0 = some []) :
    loadICTFaceModel fs svc folderpath fuel =
      some (.error .noValidMorphTargets) ∧
    loadICTFaceModel fs svc folderpath fuel ≠ some (.ok (0, 0)) ∧
    specErrorKind .noValidMorphTargets = .NoMorphTargetsError := by
  have hrun := loadICTFaceModelState_run fs svc folderpath fuel cfg names
    hdir hn hc hcfg hfal hb he
  have h1 : loadICTFaceModel fs svc folderpath fuel =
      some (.error .noValidMorphTargets) := by
    rw [loadICTFaceModel, hrun, hident]
    simp [hexpr, Except.map]
  refine ⟨h1, ?_, rfl⟩
  rw [h1]
  simp

/-- Claim C3 witness: a directory whose manifest names one expression
whose file is absent, and which has no identity files. -/
theorem claim_C3_witness :
    loadICTFaceModel fsNoTargets svcAllOk "d" 1 =
      some (.error .noValidMorphTargets) ∧
    loadICTFaceModel fsNoTargets svcAllOk "d" 1 ≠ some (.ok (0, 0)) ∧
    specErrorKind .noValidMorphTargets = .NoMorphTargetsError :=
  claim_C3 fsNoTargets svcAllOk "d" 1 ⟨false, some ["smile"]⟩ ["smile"]
    (by decide) (by decide) (by decide) (by decide) (by decide) (by decide)
    (by decide) (by decide) (by decide)

/-- Claim C10: although the identity loop iterates over an unbounded
index sequence, it terminates whenever the file of some index is absent —
which always holds for a directory with only finitely many identity
meshes — so with enough fuel the embedding never exhausts it, and the
whole pipeline yields a result. -/
theorem claim_C10 (fs : FS) (svc : ImportService) (folderpath : String) (k : Nat)
    (hmiss : fs.pathExists
      (pathJoin folderpath (identity_morph_target_name k ++ ".obj")) = false) :
    ∀ fuel, k + 1 ≤ fuel →
      identityLoopAux fs svc folderpath fuel 0 ≠ none ∧
      loadICTFaceModelState fs svc folderpath fuel ≠ none := by
  intro fuel hfuel
  have hterm := identityLoopAux_total fs svc folderpath k 0 fuel hfuel
    (by rwa [Nat.zero_add])
  exact ⟨hterm, fun hnone =>
    hterm (loadICTFaceModelState_none_inv fs svc folderpath fuel hnone)⟩

/-- Claim C10 witness: in the concrete directory whose identity file
at index 2 is absent, fuel 3 suffices. -/
theorem claim_C10_witness :
    identityLoopAux fsA svcAllOk "d" 3 0 ≠ none ∧
    loadICTFaceModelState fsA svcAllOk "d" 3 ≠ none :=
  claim_C10 fsA svcAllOk "d" 2 (by decide) 3 (by decide)

/-- Claim C7 counterexample: with a non-empty manifest lacking the
`expressions` key, in a directory holding `identity000.obj`, the code
raises an uncaught `KeyError` at `config["expressions"]` instead of
proceeding to collect zero expressions and one identity as the claim
predicts. -/
theorem claim_C7_counterexample :
    loadICTFaceModel fsNoKey svcAllOk "d" 2 =
      some (.error .keyErrorExpressions) ∧
    loadICTFaceModel fsNoKey svcAllOk "d" 2 ≠ some (.ok (0, 1)) := by
  refine ⟨rfl, ?_⟩
  intro h
  rw [show loadICTFaceModel fsNoKey svcAllOk "d" 2 =
    some (.error .keyErrorExpressions) from rfl] at h
  simp at h

/-- Claim C7 as amended: when the parsed manifest is non-empty but
lacks the `expressions` key, `loadICTFaceModel` does not fail at the
manifest-reading stage; it fails after the base import, with the
uncaught `KeyError` raised by `config["expressions"]` at the top of
the expression loop, instead of proceeding with zero expressions. -/
theorem claim_C7 (fs : FS) (svc : ImportService) (folderpath : String)
    (fuel : Nat) (cfg : Config)
    (hdir : fs.isDir folderpath = true)
    (hn : fs.pathExists (pathJoin folderpath generic_neutral_filename) = true)
    (hc : fs.pathExists (pathJoin folderpath config_filename) = true)
    (hcfg : fs.configContent = .valid cfg)
    (hfal : cfg.isFalsy = false)
    (hnokey : cfg.expressions = none)
    (hb : svc.baseOutcome = .ok) :
    loadICTFaceModel fs svc folderpath fuel =
      some (.error .keyErrorExpressions) ∧
    specErrorKind .keyErrorExpressions ≠ .ConfigError := by
  refine ⟨?_, by decide⟩
  simp [loadICTFaceModel, loadICTFaceModelState, Except.map,
    hdir, hn, hc, hcfg, hfal, hnokey, hb]

/-- Claim C7 witness: the amended behaviour at a concrete input. -/
theorem claim_C7_witness :
    loadICTFaceModel fsNoKey svcAllOk "d" 1 =
      some (.error .keyErrorExpressions) ∧
    specErrorKind .keyErrorExpressions ≠ .ConfigError :=
  claim_C7 fsNoKey svcAllOk "d" 1 ⟨true, none⟩
    (by decide) (by decide) (by decide) (by decide) (by decide) (by decide)
    (by decide)

/-- Claim C1: when the identity files exist for indices `0 .. k-1`,
their imports succeed, and the file for index `k` is absent, the
identity loop collects exactly the `k` names `identity000 ..` and the
returned identity count is `k`. Nothing past index `k` is constrained
by the hypotheses, so indices past the first missing one are never
examined: the result is the same whatever holds there, which settles
the `0,1,3`-present, `2`-absent example at exactly 2 identities. -/
theorem claim_C1 (fs : FS) (svc : ImportService) (folderpath : String)
    (k fuel : Nat)
    (hex : ∀ i, i < k → fs.pathExists
      (pathJoin folderpath (identity_morph_target_name i ++ ".obj")) = true)
    (hok : ∀ i, i < k → svc.identOutcome i = .ok)
    (hmiss : fs.pathExists
      (pathJoin folderpath (identity_morph_target_name k ++ ".obj")) = false)
    (hfuel : k + 1 ≤ fuel) :
    identityLoopAux fs svc folderpath fuel 0 =
      some ((List.range k).map identity_morph_target_name) ∧
    ((List.range k).map identity_morph_target_name).length = k ∧
    (∀ st, loadICTFaceModelState fs svc folderpath fuel = some (.ok st) →
      st.identity_names.length = k) := by
  have h1 := identityLoopAux_run fs svc folderpath k 0 fuel hfuel
    (fun m hm => by rw [Nat.zero_add]; exact hex m hm)
    (fun m hm => by rw [Nat.zero_add]; exact hok m hm)
    (by rwa [Nat.zero_add])
  rw [← List.range_eq_range'] at h1
  refine ⟨h1, by simp, ?_⟩
  intro st hst
  obtain ⟨-, h2, -⟩ := loadICTFaceModelState_ok_inv fs svc folderpath fuel st hst
  rw [h1] at h2
  rw [Option.some_inj] at h2
  rw [← h2]
  simp

/-- Claim C1 witness: identity files at indices 0, 1 and 3 with index
2 absent yield exactly the two identities of indices 0 and 1, and a
successful concrete run returns identity count 2. -/
theorem claim_C1_witness :
    identityLoopAux fsA svcAllOk "d" 3 0 =
      some ((List.range 2).map identity_morph_target_name) ∧
    ((List.range 2).map identity_morph_target_name).length = 2 ∧
    (∀ st, loadICTFaceModelState fsA svcAllOk "d" 3 = some (.ok st) →
      st.identity_names.length = 2) :=
  claim_C1 fsA svcAllOk "d" 2 3 (by decide) (by decide) (by decide) (by decide)

/-- Claim C2: over any manifest list, the expression loop collects
exactly the declared names whose `.obj` file exists and whose import
succeeds, in manifest order (so absent names are skipped silently),
and under the usual preconditions a run whose collections are not
both empty returns the length of that collection as the expression
count, with no error raised for the skipped names. -/
theorem claim_C2 (fs : FS) (svc : ImportService) (folderpath : String)
    (fuel : Nat) (cfg : Config) (names : List String)
    (hdir : fs.isDir folderpath = true)
    (hn : fs.pathExists (pathJoin folderpath generic_neutral_filename) = true)
    (hc : fs.pathExists (pathJoin folderpath config_filename) = true)
    (hcfg : fs.configContent = .valid cfg)
    (hfal : cfg.isFalsy = false)
    (hb : svc.baseOutcome = .ok)
    (he : cfg.expressions = some names) :
    expressionLoopAux fs svc folderpath names 0 =
      specCollectedExpressions fs svc folderpath names ∧
    (∀ ids, identityLoopAux fs svc folderpath fuel 0 = some ids →
      specCollectedExpressions fs svc folderpath names ≠ [] ∨ ids ≠ [] →
      loadICTFaceModel fs svc folderpath fuel =
        some (.ok ((specCollectedExpressions fs svc folderpath names).length,
          ids.length))) := by
  have hcoll : expressionLoopAux fs svc folderpath names 0 =
      specCollectedExpressions fs svc folderpath names := by
    rw [specCollectedExpressions]
    exact expressionLoopAux_eq_filter fs svc folderpath names 0
  refine ⟨hcoll, ?_⟩
  intro ids hid hne
  have hemp : ((expressionLoopAux fs svc folderpath names 0).isEmpty &&
      ids.isEmpty) = false := by
    cases hne with
    | inl hne =>
      rw [isEmpty_false_of_ne_nil _ (by rw [hcoll]; exact hne)]
      rfl
    | inr hne =>
      rw [isEmpty_false_of_ne_nil _ hne]
      simp
  rw [loadICTFaceModel,
    loadICTFaceModelState_run fs svc folderpath fuel cfg names
      hdir hn hc hcfg hfal hb he,
    hid]
  simp only [hemp, Bool.false_eq_true, if_false, Option.map_some]
  rw [hcoll]
  rfl

/-- Claim C2 witness: manifest `["smile", "frown"]` with `smile.obj`
present and `frown.obj` absent collects exactly `["smile"]` and a
concrete run returns expression count 1. -/
theorem claim_C2_witness :
    expressionLoopAux fsA svcAllOk "d" ["smile", "frown"] 0 =
      specCollectedExpressions fsA svcAllOk "d" ["smile", "frown"] ∧
    loadICTFaceModel fsA svcAllOk "d" 3 =
      some (.ok ((specCollectedExpressions fsA svcAllOk "d"
        ["smile", "frown"]).length, (["identity000", "identity001"] : List String).length)) := by
  have h := claim_C2 fsA svcAllOk "d" 3 cfgA ["smile", "frown"]
    (by decide) (by decide) (by decide) (by decide) (by decide) (by decide)
    (by decide)
  exact ⟨h.1, h.2 ["identity000", "identity001"] (by decide) (Or.inl (by decide))⟩

/-- Claim C9: whatever the pattern of present, absent or failing
expression files, the collected expression names of any successful
run form an order-preserving subsequence of the manifest list, so
the expression count never exceeds the length of the manifest. -/
theorem claim_C9 (fs : FS) (svc : ImportService) (folderpath : String)
    (fuel : Nat) (st : LoadState) (cfg : Config) (names : List String)
    (hcfg : fs.configContent = .valid cfg)
    (he : cfg.expressions = some names)
    (hst : loadICTFaceModelState fs svc folderpath fuel = some (.ok st)) :
    st.expression_names.Sublist names ∧
    st.expression_names.length ≤ names.length := by
  obtain ⟨-, -, cfg2, names2, hcfg2, he2, hex⟩ :=
    loadICTFaceModelState_ok_inv fs svc folderpath fuel st hst
  rw [hcfg] at hcfg2
  injection hcfg2 with hc2
  subst hc2
  rw [he] at he2
  rw [Option.some_inj] at he2
  subst he2
  have hsub : st.expression_names.Sublist names := by
    rw [hex]
    exact expressionLoopAux_sublist fs svc folderpath names 0
  exact ⟨hsub, hsub.length_le⟩

/-- Claim C9 witness: the concrete run collecting `["smile"]` from
the manifest `["smile", "frown"]`. -/
theorem claim_C9_witness :
    (["smile"] : List String).Sublist ["smile", "frown"] ∧
    (["smile"] : List String).length ≤ (["smile", "frown"] : List String).length := by
  have h := claim_C9 fsA svcAllOk "d" 3
    ⟨"ICTFaceModel", ["smile"], ["identity000", "identity001"]⟩ cfgA
    ["smile", "frown"] (by decide) (by decide) rfl
  exact h

/-- Claim C8: under the precondition checks and a well-formed
manifest, the base import fails with the `ImportError`-classified
error exactly when the import call raises or yields no selected
object; and whenever a run succeeds, the base object has been renamed
to the fixed label `"ICTFaceModel"` and is the object all collected
variants were joined onto. -/
theorem claim_C8 (fs : FS) (svc : ImportService) (folderpath : String)
    (fuel : Nat) (cfg : Config)
    (hdir : fs.isDir folderpath = true)
    (hn : fs.pathExists (pathJoin folderpath generic_neutral_filename) = true)
    (hc : fs.pathExists (pathJoin folderpath config_filename) = true)
    (hcfg : fs.configContent = .valid cfg)
    (hfal : cfg.isFalsy = false) :
    (svc.baseOutcome ≠ .ok →
      loadICTFaceModelState fs svc folderpath fuel =
        some (.error .errorImportingNeutralMesh)) ∧
    (loadICTFaceModelState fs svc folderpath fuel =
        some (.error .errorImportingNeutralMesh) →
      svc.baseOutcome ≠ .ok) ∧
    (∀ st, loadICTFaceModelState fs svc folderpath fuel = some (.ok st) →
      st.baseObjectName = face_model_name) ∧
    specErrorKind .errorImportingNeutralMesh = .ImportError := by
  refine ⟨?_, ?_, ?_, rfl⟩
  · intro hnot
    cases hb : svc.baseOutcome with
    | ok => exact absurd hb hnot
    | noObject =>
      simp [loadICTFaceModelState, hdir, hn, hc, hcfg, hfal, hb]
    | exc =>
      simp [loadICTFaceModelState, hdir, hn, hc, hcfg, hfal, hb]
  · intro herr hb
    cases he : cfg.expressions with
    | none =>
      rw [loadICTFaceModelState] at herr
      simp [hdir, hn, hc, hcfg, hfal, hb, he] at herr
    | some names =>
      rw [loadICTFaceModelState_run fs svc folderpath fuel cfg names
        hdir hn hc hcfg hfal hb he] at herr
      cases hid : identityLoopAux fs svc folderpath fuel 0 with
      | none => rw [hid] at herr; simp at herr
      | some ids =>
        rw [hid] at herr
        simp only at herr
        cases hemp : (expressionLoopAux fs svc folderpath names 0).isEmpty &&
            ids.isEmpty with
        | true => rw [hemp] at herr; simp at herr
        | false => rw [hemp] at herr; simp at herr
  · intro st hst
    exact (loadICTFaceModelState_ok_inv fs svc folderpath fuel st hst).1

/-- Claim C8 witness: a raising base import fails the concrete run
with the import error, and the successful concrete run names its
base object `"ICTFaceModel"`. -/
theorem claim_C8_witness :
    loadICTFaceModelState fsA svcBaseExc "d" 1 =
      some (.error .errorImportingNeutralMesh) ∧
    (∀ st, loadICTFaceModelState fsA svcAllOk "d" 3 = some (.ok st) →
      st.baseObjectName = face_model_name) := by
  refine ⟨?_, ?_⟩
  · exact (claim_C8 fsA svcBaseExc "d" 1 cfgA
      (by decide) (by decide) (by decide) (by decide) (by decide)).1 (by decide)
  · exact (claim_C8 fsA svcAllOk "d" 3 cfgA
      (by decide) (by decide) (by decide) (by decide) (by decide)).2.2.1

/-- Claim C6: the two import loops treat an unexpected exception
asymmetrically. In the expression loop an exception at one entry only
skips that entry: with every file present and every other import
succeeding, the result drops exactly the failing entry and keeps all
later ones. In the identity loop an exception terminates discovery:
with files present through index `j` and the import at `j` raising,
the result keeps only indices below `j`, no matter what later indices
hold. In both cases the pipeline still succeeds provided at least one
variant was collected. -/
theorem claim_C6 (fs : FS) (svc : ImportService) (folderpath : String) :
    (∀ (pre post : List String) (x : String),
      (∀ n ∈ pre, fs.pathExists (pathJoin folderpath (n ++ ".obj")) = true) →
      (∀ k, k < pre.length → svc.exprOutcome k = .ok) →
      fs.pathExists (pathJoin folderpath (x ++ ".obj")) = true →
      svc.exprOutcome pre.length = .exc →
      (∀ n ∈ post, fs.pathExists (pathJoin folderpath (n ++ ".obj")) = true) →
      (∀ k, pre.length < k → svc.exprOutcome k = .ok) →
      expressionLoopAux fs svc folderpath (pre ++ x :: post) 0 = pre ++ post) ∧
    (∀ (j fuel : Nat), j + 1 ≤ fuel →
      (∀ i, i ≤ j → fs.pathExists
        (pathJoin folderpath (identity_morph_target_name i ++ ".obj")) = true) →
      (∀ i, i < j → svc.identOutcome i = .ok) →
      svc.identOutcome j = .exc →
      identityLoopAux fs svc folderpath fuel 0 =
        some ((List.range j).map identity_morph_target_name)) ∧
    (∀ (fuel : Nat) (cfg : Config) (names ids : List String),
      fs.isDir folderpath = true →
      fs.pathExists (pathJoin folderpath generic_neutral_filename) = true →
      fs.pathExists (pathJoin folderpath config_filename) = true →
      fs.configContent = .valid cfg →
      cfg.isFalsy = false →
      svc.baseOutcome = .ok →
      cfg.expressions = some names →
      identityLoopAux fs svc folderpath fuel 0 = some ids →
      expressionLoopAux fs svc folderpath names 0 ≠ [] ∨ ids ≠ [] →
      loadICTFaceModelState fs svc folderpath fuel =
        some (.ok ⟨face_model_name,
          expressionLoopAux fs svc folderpath names 0, ids⟩)) := by
  refine ⟨?_, ?_, ?_⟩
  · intro pre post x hexPre hokPre hx hexc hexPost hokPost
    rw [expressionLoopAux_append fs svc folderpath pre (x :: post) 0 hexPre
      (fun k hk0 hk1 => hokPre k (by omega))]
    rw [Nat.zero_add]
    congr 1
    rw [expressionLoopAux]
    rw [hx]
    simp only [Bool.true_eq_false, if_false]
    rw [hexc]
    exact expressionLoopAux_all_ok fs svc folderpath post (pre.length + 1)
      hexPost (fun k hk => hokPost k (by omega))
  · intro j fuel hfuel hex hok hexc
    have h := identityLoopAux_break fs svc folderpath j 0 fuel hfuel
      (fun m hm => by rw [Nat.zero_add]; exact hex m hm)
      (fun m hm => by rw [Nat.zero_add]; exact hok m hm)
      (by rwa [Nat.zero_add])
    rwa [← List.range_eq_range'] at h
  · intro fuel cfg names ids hdir hn hc hcfg hfal hb he hid hne
    have hemp : ((expressionLoopAux fs svc folderpath names 0).isEmpty &&
        ids.isEmpty) = false := by
      cases hne with
      | inl hne => rw [isEmpty_false_of_ne_nil _ hne]; rfl
      | inr hne => rw [isEmpty_false_of_ne_nil _ hne]; simp
    rw [loadICTFaceModelState_run fs svc folderpath fuel cfg names
      hdir hn hc hcfg hfal hb he, hid]
    simp only [hemp, Bool.false_eq_true, if_false]

/-- Claim C6 witness: with files `a.obj`, `b.obj`, `c.obj` present
and the import of manifest entry 1 raising, the loop collects
`["a", "c"]`; with identity files at indices 0, 1, 2 and the import
at index 1 raising, discovery stops with only `identity000`; in both
cases the concrete pipeline still succeeds. -/
theorem claim_C6_witness :
    expressionLoopAux fsB svcExprOneExc "d" ["a", "b", "c"] 0 = ["a", "c"] ∧
    identityLoopAux fsB svcIdentOneExc "d" 2 0 = some ["identity000"] ∧
    loadICTFaceModelState fsB svcExprOneExc "d" 4 =
      some (.ok ⟨"ICTFaceModel", ["a", "c"],
        ["identity000", "identity001", "identity002"]⟩) := by
  refine ⟨?_, ?_, ?_⟩
  · have h := (claim_C6 fsB svcExprOneExc "d").1 ["a"] ["c"] "b"
      (by decide) (by decide) (by decide) (by decide) (by decide)
      (fun k hk => by
        have hk1 : 1 < k := by simpa using hk
        simp only [svcExprOneExc]
        rw [if_neg (by omega : ¬ k = 1)])
    simpa using h
  · rw [(claim_C6 fsB svcIdentOneExc "d").2.1 1 2 (by decide) (by decide)
      (by decide) (by decide)]
    decide
  · rw [(claim_C6 fsB svcExprOneExc "d").2.2 4 ⟨false, some ["a", "b", "c"]⟩
      ["a", "b", "c"] ["identity000", "identity001", "identity002"]
      (by decide) (by decide) (by decide) (by decide) (by decide) (by decide)
      (by decide) (by decide) (Or.inr (by decide))]
    rfl
